import Mathlib

/-!
Verification development for the `xumo_tv` Home Assistant custom integration.

The repository glues the `aiohomekit` pairing/controller library to the Home
Assistant config-flow and entity frameworks.  We shallowly embed the in-repo
logic:

* `config_flow.py`: PIN validation/normalization (`ensure_pin_format`, the
  regex `^(\d{3})-{0,1}(\d{2})-{0,1}(\d{3})$`, `INSECURE_CODES`), the pairing
  step machine (`async_step_user`, `async_step_pair`,
  `async_step_busy_error` / `max_tries_error` / `protocol_error`) and
  `_entry_from_accessory`.
* `media_player.py`: the `HomeKitTelevision` entity (`state`,
  `supported_features`, media commands, volume/mute commands).

Library calls (`aiohomekit` network operations, `get_mac_address`,
`clamp_enum_to_char`) are modelled as explicit parameters: the outcome of each
call is an input of the embedded function.  Python exceptions become `Except`
values or explicit outcome constructors; Python `None`/falsiness is modelled
with `Option`.  The regex `\d` and `str.strip`/`str.lower` are modelled over
ASCII characters.
-/

namespace XumoTV

/-! ## PIN validation (`config_flow.py`, `ensure_pin_format`) -/

/-- Characters removed by Python's `str.strip()` (ASCII whitespace). -/
def pyWhitespace (c : Char) : Bool :=
  c = ' ' || c = '\t' || c = '\n' || c = '\r' || c = Char.ofNat 11 || c = Char.ofNat 12

/-- Python `str.strip()`: drop whitespace from both ends. -/
def pyStrip (s : List Char) : List Char :=
  ((s.dropWhile pyWhitespace).reverse.dropWhile pyWhitespace).reverse

/-- All characters are (ASCII) digits, the model of `\d`. -/
def isDigits (l : List Char) : Bool := l.all (·.isDigit)

/-- Consume the optional dash `-{0,1}` of `PIN_FORMAT`.  The regex operator is
greedy, but since the atom following each optional dash is a digit (and `-` is
not a digit) the match is deterministic: a leading dash must be consumed. -/
def optDash : List Char → List Char
  | [] => []
  | c :: r => if c = '-' then r else c :: r

/-- Matching of `PIN_FORMAT = ^(\d{3})-{0,1}(\d{2})-{0,1}(\d{3})$` against a
whole (already stripped) string, returning the three capture groups.
`re.search` with both anchors on a string without a trailing newline is a full
match, compiled here to a deterministic parser. -/
def pinMatch (s : List Char) : Option (List Char × List Char × List Char) :=
  match s with
  | a1 :: a2 :: a3 :: r1 =>
    if isDigits [a1, a2, a3] then
      match optDash r1 with
      | b1 :: b2 :: r2 =>
        if isDigits [b1, b2] then
          match optDash r2 with
          | c1 :: c2 :: c3 :: r3 =>
            if isDigits [c1, c2, c3] && r3.isEmpty then
              some ([a1, a2, a3], [b1, b2], [c1, c2, c3])
            else none
          | _ => none
        else none
      | _ => none
    else none
  | _ => none

/-- The set `INSECURE_CODES` from `config_flow.py`. -/
def INSECURE_CODES : List String :=
  ["00000000", "11111111", "22222222", "33333333", "44444444", "55555555",
   "66666666", "77777777", "88888888", "99999999", "12345678", "87654321"]

/-- The exceptions `ensure_pin_format` can raise. -/
inductive PinError where
  | malformedPin
  | insecureSetupCode
deriving DecidableEq, Repr

/-- `ensure_pin_format(pin, allow_insecure_setup_codes)` from `config_flow.py`.
The `allow_insecure_setup_codes : Any = None` argument is modelled by its
truthiness. -/
def ensure_pin_format (pin : String) (allowInsecureSetupCodes : Bool := false) :
    Except PinError String :=
  match pinMatch (pyStrip pin.toList) with
  | none => .error .malformedPin
  | some (g1, g2, g3) =>
    let pinWithoutDashes := (g1 ++ g2 ++ g3).asString
    if !allowInsecureSetupCodes && INSECURE_CODES.contains pinWithoutDashes then
      .error .insecureSetupCode
    else
      -- `"-".join(match.groups())`
      .ok ((g1 ++ '-' :: (g2 ++ '-' :: g3)).asString)

/-- The shape described by the spec: three digits, an optional dash, two
digits, an optional dash, three digits — the four concrete arrangements of
the groups `a`, `b`, `c`. -/
def dashedForms (a b c : List Char) : List (List Char) :=
  [a ++ b ++ c,
   a ++ '-' :: (b ++ c),
   a ++ b ++ '-' :: c,
   a ++ '-' :: (b ++ '-' :: c)]

/-- A string has the PIN shape with digit groups `a`, `b`, `c`. -/
def PinShape (s a b c : List Char) : Prop :=
  a.length = 3 ∧ b.length = 2 ∧ c.length = 3 ∧
  isDigits a = true ∧ isDigits b = true ∧ isDigits c = true ∧
  s ∈ dashedForms a b c

/-! ## Media player entity (`media_player.py`)

The `HomeKitTelevision` entity reads characteristic values through
`self.service.value(...)` / `self.service.has(...)` and the library helper
`clamp_enum_to_char`.  We model the slice of the accessory state the entity
consults, and each command handler as a function returning the characteristic
write it issues (`none` when it returns without writing). -/

/-- `homeassistant.components.media_player.MediaPlayerState` (host enum). -/
inductive MediaPlayerState where
  | off
  | on
  | idle
  | playing
  | paused
  | standby
  | buffering
deriving DecidableEq, Repr

/- `aiohomekit.model.characteristics.CurrentMediaStateValues` (library enum). -/
namespace CurrentMediaStateValues

def PLAYING : Nat := 0

def PAUSED : Nat := 1

def STOPPED : Nat := 2

end CurrentMediaStateValues

/- `aiohomekit.model.characteristics.TargetMediaStateValues` (library enum). -/
namespace TargetMediaStateValues

def PLAY : Nat := 0

def PAUSE : Nat := 1

def STOP : Nat := 2

end TargetMediaStateValues

/- `aiohomekit.model.characteristics.RemoteKeyValues` (library enum). -/
namespace RemoteKeyValues

def NEXT_TRACK : Nat := 2

def PREVIOUS_TRACK : Nat := 3

def PLAY_PAUSE : Nat := 11

end RemoteKeyValues

/- `ToggleButton` from `media_player.py`: value to send if a button is
pressed. -/
namespace ToggleButton

def TOGGLE_0 : Nat := 0

def TOGGLE_1 : Nat := 1

end ToggleButton

/-- `HK_TO_HA_STATE` from `media_player.py`. -/
def HK_TO_HA_STATE : List (Nat × MediaPlayerState) :=
  [(CurrentMediaStateValues.PLAYING, .playing),
   (CurrentMediaStateValues.PAUSED, .paused),
   (CurrentMediaStateValues.STOPPED, .idle)]

/-- The characteristics the television/speaker entities touch. -/
inductive CharType where
  | active
  | activeIdentifier
  | currentMediaState
  | targetMediaState
  | remoteKey
  | mute
  | volume
  | volumeSelector
deriving DecidableEq, Repr

/-- The television service as the entity reads it: presence of each
characteristic (`service.has`), the current values (`service.value`, `none`
when the characteristic is absent or its value is `None`), and for the two
enum-valued characteristics the valid-values set computed by the library's
`clamp_enum_to_char`. -/
structure TVService where
  hasActive : Bool
  hasActiveIdentifier : Bool
  hasTargetMediaState : Bool
  hasRemoteKey : Bool
  activeValue : Option Nat
  currentMediaStateValue : Option Nat
  targetMediaStateClamped : List Nat
  remoteKeyClamped : List Nat
deriving DecidableEq, Repr

/-- The speaker service characteristics consulted by `supported_features`. -/
structure SpeakerService where
  hasVolume : Bool
  hasVolumeSelector : Bool
  hasMute : Bool
deriving DecidableEq, Repr

/-- The `HomeKitTelevision` entity: its television service and the optional
`self.speaker` entity (set at setup when a speaker service exists). -/
structure HomeKitTelevision where
  service : TVService
  speaker : Option SpeakerService
deriving DecidableEq, Repr

/-- `MediaPlayerEntityFeature` flags used by `supported_features`.  The host
defines them as distinct bits; the accumulated bit-or is modelled as the list
of set flags. -/
inductive MediaPlayerEntityFeature where
  | PAUSE
  | PLAY
  | STOP
  | SELECT_SOURCE
  | TURN_ON
  | TURN_OFF
  | VOLUME_SET
  | VOLUME_STEP
  | VOLUME_MUTE
  | PREVIOUS_TRACK
  | NEXT_TRACK
deriving DecidableEq, Repr

/-- Target of an `async_put_characteristics` call: the television entity
itself or its `self.speaker`. -/
inductive WriteTarget where
  | television
  | speaker
deriving DecidableEq, Repr

/-- One characteristic write issued by a command handler. -/
structure CharacteristicWrite where
  target : WriteTarget
  characteristic : CharType
  value : Nat
deriving DecidableEq, Repr

namespace HomeKitTelevision

/-- `HomeKitTelevision.supported_media_states`. -/
def supported_media_states (tv : HomeKitTelevision) : List Nat :=
  if tv.service.hasTargetMediaState then tv.service.targetMediaStateClamped else []

/-- `HomeKitTelevision.supported_remote_keys`. -/
def supported_remote_keys (tv : HomeKitTelevision) : List Nat :=
  if tv.service.hasRemoteKey then tv.service.remoteKeyClamped else []

/-- `HomeKitTelevision.supported_features`. -/
def supported_features (tv : HomeKitTelevision) : List MediaPlayerEntityFeature :=
  (if tv.service.hasActiveIdentifier then [.SELECT_SOURCE] else []) ++
  (if tv.service.hasActive then [.TURN_ON, .TURN_OFF] else []) ++
  (if tv.service.hasTargetMediaState then
    (if TargetMediaStateValues.PAUSE ∈ tv.supported_media_states then [.PAUSE] else []) ++
    (if TargetMediaStateValues.PLAY ∈ tv.supported_media_states then [.PLAY] else []) ++
    (if TargetMediaStateValues.STOP ∈ tv.supported_media_states then [.STOP] else [])
  else []) ++
  (match tv.speaker with
   | some sp =>
     (if sp.hasVolume then [.VOLUME_SET] else []) ++
     (if sp.hasVolumeSelector then [.VOLUME_STEP] else []) ++
     (if sp.hasMute then [.VOLUME_MUTE] else [])
   | none => []) ++
  (if tv.service.hasRemoteKey then
    (if RemoteKeyValues.PLAY_PAUSE ∈ tv.supported_remote_keys then [.PAUSE, .PLAY] else []) ++
    (if RemoteKeyValues.PREVIOUS_TRACK ∈ tv.supported_remote_keys then
      [.PREVIOUS_TRACK] else []) ++
    (if RemoteKeyValues.NEXT_TRACK ∈ tv.supported_remote_keys then [.NEXT_TRACK] else [])
  else [])

/-- `HomeKitTelevision.state`: `if not active: OFF`, then
`HK_TO_HA_STATE.get(current_media_state, ON)` when the media state is not
`None`, else `ON`. -/
def state (tv : HomeKitTelevision) : MediaPlayerState :=
  match tv.service.activeValue with
  | none => .off
  | some 0 => .off
  | some _ =>
    match tv.service.currentMediaStateValue with
    | none => .on
    | some v => (HK_TO_HA_STATE.lookup v).getD .on

/-- `HomeKitTelevision.async_media_play`. -/
def async_media_play (tv : HomeKitTelevision) : Option CharacteristicWrite :=
  if tv.state = .playing then none
  else if TargetMediaStateValues.PLAY ∈ tv.supported_media_states then
    some ⟨.television, .targetMediaState, TargetMediaStateValues.PLAY⟩
  else if RemoteKeyValues.PLAY_PAUSE ∈ tv.supported_remote_keys then
    some ⟨.television, .remoteKey, RemoteKeyValues.PLAY_PAUSE⟩
  else none

/-- `HomeKitTelevision.async_media_pause`. -/
def async_media_pause (tv : HomeKitTelevision) : Option CharacteristicWrite :=
  if tv.state = .paused then none
  else if TargetMediaStateValues.PAUSE ∈ tv.supported_media_states then
    some ⟨.television, .targetMediaState, TargetMediaStateValues.PAUSE⟩
  else if RemoteKeyValues.PLAY_PAUSE ∈ tv.supported_remote_keys then
    some ⟨.television, .remoteKey, RemoteKeyValues.PLAY_PAUSE⟩
  else none

/-- `HomeKitTelevision.async_media_stop`. -/
def async_media_stop (tv : HomeKitTelevision) : Option CharacteristicWrite :=
  if tv.state = .idle then none
  else if TargetMediaStateValues.STOP ∈ tv.supported_media_states then
    some ⟨.television, .targetMediaState, TargetMediaStateValues.STOP⟩
  else none

/-- `HomeKitTelevision.async_mute_volume`: writes `MUTE := TOGGLE_1` to the
speaker, whatever the `mute` argument. -/
def async_mute_volume (_tv : HomeKitTelevision) (_mute : Bool) : CharacteristicWrite :=
  ⟨.speaker, .mute, ToggleButton.TOGGLE_1⟩

end HomeKitTelevision

/-! ## Config flow (`config_flow.py`)

Each `async_step_*` coroutine is embedded as a function of the flow state,
the user input and a `PairEnv` giving the outcome of every library call the
step may make; it returns the `ConfigFlowResult` it produces.  Python
exceptions raised by the library are outcome constructors; an exception the
flow does not catch is the `uncaughtError` result. -/

/-- `DEFAULT_NAME` from `config_flow.py`. -/
def DEFAULT_NAME : String := "Xumo TV"

/-- `normalize_hkid` from `config_flow.py`: lower-case the id. -/
def normalize_hkid (hkid : String) : String := (hkid.toList.map Char.toLower).asString

/-- `needle` starts `hay`. -/
def startsWith : List Char → List Char → Bool
  | [], _ => true
  | _ :: _, [] => false
  | a :: as, b :: bs => a = b && startsWith as bs

/-- Python `hay.find(needle) > -1`: `needle` occurs inside `hay`. -/
def hasSubstring (needle : List Char) : List Char → Bool
  | [] => needle.isEmpty
  | c :: t => startsWith needle (c :: t) || hasSubstring needle t

/-- `discovery.description.name.lower().find("xumo") > -1`. -/
def containsXumo (name : String) : Bool :=
  hasSubstring "xumo".toList (name.toList.map Char.toLower)

/-- A value in the pairing-data mapping: the integration reads the
`AccessoryIPs` string list and stores a string (or Python `None`, which
`get_mac_address` may return). -/
inductive PValue where
  | str (s : String)
  | strList (l : List String)
  | pynone
deriving DecidableEq, Repr

/-- Python `d[k] = v` on an insertion-ordered mapping: replace the value at
an existing key, else append the new pair. -/
def dictSet {α : Type} : List (String × α) → String → α → List (String × α)
  | [], k, v => [(k, v)]
  | (a, b) :: t, k, v => if a = k then (k, v) :: t else (a, b) :: dictSet t k v

/-- One `AbstractDiscovery` as the flow reads it: `paired` and the
`description` fields.  `model` already holds the result of
`getattr(description, "model", DEFAULT_NAME)`; `category` is the library
category member (the flow only renders it into UI labels). -/
structure Discovery where
  paired : Bool
  name : String
  id : String
  category : String
  model : String
deriving DecidableEq, Repr

/-- `pairing.accessories_state` as `_entry_from_accessory` reads it
(`accessories.serialize()` and `serialize_broadcast_key(broadcast_key)`
already applied: they are library functions). -/
structure AccessoriesState where
  configNum : Nat
  accessoriesSerialized : String
  broadcastKeySerialized : String
  stateNum : Nat
deriving DecidableEq, Repr

/-- The successful pairing object `_entry_from_accessory` receives:
`pairing_data`, `get_primary_name()`, `id` and `accessories_state`. -/
structure Pairing where
  id : String
  pairingData : List (String × PValue)
  primaryName : String
  accessoriesState : AccessoriesState
deriving DecidableEq, Repr

/-- The `ConfigFlowResult`s this flow produces (form schemas and description
placeholders are UI strings, not modelled). -/
inductive FlowResult where
  | showForm (stepId : String) (errors : List (String × String))
  | abort (reason : String)
  | createEntry (title : String) (data : List (String × PValue))
  | uncaughtError
deriving DecidableEq, Repr

/-- The `async_create_or_update_map` call made on the external entity-storage
helper. -/
structure StorageCall where
  pairingId : String
  configNum : Nat
  accessories : String
  broadcastKey : String
  stateNum : Nat
deriving DecidableEq, Repr

/-- What `_entry_from_accessory` does: the storage-helper call it makes and
the flow result it returns. -/
structure EntryOutcome where
  storageCall : Option StorageCall
  result : FlowResult
deriving DecidableEq, Repr

/-- `_entry_from_accessory(pairing)`.  `macOf` is the external
`get_mac_address(ip=...)` (which may return `None`).  Reading
`pairing_data["AccessoryIPs"]` raises `KeyError` when the key is absent (or
is not the list the code indexes), which this function does not catch. -/
def entryFromAccessory (pairing : Pairing) (macOf : String → Option String) : EntryOutcome :=
  let pairingData := pairing.pairingData
  let name := pairing.primaryName
  let ast := pairing.accessoriesState
  let call : StorageCall :=
    ⟨pairing.id, ast.configNum, ast.accessoriesSerialized,
      ast.broadcastKeySerialized, ast.stateNum⟩
  match pairingData.lookup "AccessoryIPs" with
  | some (.strList ips) =>
    let macAddress : PValue :=
      if ips.isEmpty then .str "" else
        match macOf (ips.headD "") with
        | some m => .str m
        | none => .pynone
    ⟨some call, .createEntry name (dictSet pairingData "TV_MAC_ADDRESS" macAddress)⟩
  | _ => ⟨some call, .uncaughtError⟩

/-- Outcome of `await self.finish_pairing(code)`. -/
inductive FinishOutcome where
  | success (pairing : Pairing)
  | authenticationError
  | unknownError
  | maxPeersError
  | accessoryNotFoundError
  | otherError (msg : String)
deriving DecidableEq, Repr

/-- Outcome of `controller.async_find(hkid)` followed by
`discovery.async_start_pairing(hkid)` (one `try` block in the source). -/
inductive StartOutcome where
  | success
  | busyError
  | maxTriesError
  | unavailableError
  | accessoryNotFoundError
  | indexError
  | otherError (msg : String)
deriving DecidableEq, Repr

/-- The outcomes of the library calls one step invocation may make. -/
structure PairEnv where
  finishCall : FinishOutcome
  startFind : StartOutcome
  macOf : String → Option String

/-- `pair_info` as read by `async_step_pair`: the `pairing_code` entry and
the truthiness of `pair_info.get("allow_insecure_setup_codes")`. -/
structure PairInfo where
  pairingCode : String
  allowInsecureSetupCodes : Bool
deriving DecidableEq, Repr

/-- The flow handler's mutable attributes set in `__init__`. -/
structure FlowState where
  hkid : Option String
  name : Option String
  model : Option String
  category : Option String
  uniqueId : Option String
  devices : List (String × Discovery)
  finishPairing : Bool
  pairing : Bool
deriving DecidableEq, Repr

/-- `_async_step_pair_show_form(errors, ...)`. -/
def async_step_pair_show_form (errors : List (String × String)) : FlowResult :=
  .showForm "pair" errors

/-- The form `async_step_busy_error` shows when called with no input. -/
def busy_error_form : FlowResult := .showForm "busy_error" []

/-- The form `async_step_max_tries_error` shows when called with no input. -/
def max_tries_error_form : FlowResult := .showForm "max_tries_error" []

/-- The form `async_step_protocol_error` shows when called with no input. -/
def protocol_error_form : FlowResult := .showForm "protocol_error" []

/-- The `if not self.finish_pairing:` half of `async_step_pair`: attempt
`async_find` / `async_start_pairing`, mapping each library exception; then
show the pair form with the errors accumulated so far.  The routes into
`async_step_busy_error()` / `async_step_max_tries_error()` /
`async_step_protocol_error()` are those steps called with no user input,
which show their forms. -/
def startPairingPhase (finishPairing : Bool) (env : PairEnv)
    (errors : List (String × String)) : FlowResult :=
  if finishPairing then async_step_pair_show_form errors
  else
    match env.startFind with
    | .success => async_step_pair_show_form errors
    | .busyError => busy_error_form
    | .maxTriesError => max_tries_error_form
    | .unavailableError => .abort "already_paired"
    | .accessoryNotFoundError => .abort "accessory_not_found_error"
    | .indexError => protocol_error_form
    | .otherError _ => async_step_pair_show_form (dictSet errors "pairing_code" "pairing_failed")

/-- `async_step_pair(pair_info)`.  When `pair_info` is present and
`finish_pairing` is set, run `ensure_pin_format` and the finish-pairing call
inside the `try`; the `except` arms either record an error string (clearing
`finish_pairing` where the source does) or return immediately.  A
`MalformedPinError` or `InsecureSetupCode` leaves `finish_pairing` set, so
the start-pairing phase is skipped.  An exception escaping
`_entry_from_accessory` is caught by the blanket `except Exception`. -/
def async_step_pair (st : FlowState) (pairInfo : Option PairInfo) (env : PairEnv) :
    FlowResult :=
  match pairInfo, st.finishPairing with
  | some info, true =>
    match ensure_pin_format info.pairingCode info.allowInsecureSetupCodes with
    | .error .malformedPin =>
      startPairingPhase true env [("pairing_code", "authentication_error")]
    | .error .insecureSetupCode =>
      startPairingPhase true env [("pairing_code", "insecure_setup_code")]
    | .ok _code =>
      match env.finishCall with
      | .success pairing =>
        match (entryFromAccessory pairing env.macOf).result with
        | .uncaughtError => startPairingPhase false env [("pairing_code", "pairing_failed")]
        | r => r
      | .authenticationError =>
        startPairingPhase false env [("pairing_code", "authentication_error")]
      | .unknownError =>
        startPairingPhase false env [("pairing_code", "unknown_error")]
      | .maxPeersError =>
        startPairingPhase false env [("pairing_code", "max_peers_error")]
      | .accessoryNotFoundError => .abort "accessory_not_found_error"
      | .otherError _ =>
        startPairingPhase false env [("pairing_code", "pairing_failed")]
  | _, _ => startPairingPhase st.finishPairing env []

/-- `async_step_busy_error(user_input)`. -/
def async_step_busy_error (st : FlowState) (userInput : Option Unit) (env : PairEnv) :
    FlowResult :=
  match userInput with
  | some _ => async_step_pair st none env
  | none => busy_error_form

/-- `async_step_max_tries_error(user_input)`. -/
def async_step_max_tries_error (st : FlowState) (userInput : Option Unit) (env : PairEnv) :
    FlowResult :=
  match userInput with
  | some _ => async_step_pair st none env
  | none => max_tries_error_form

/-- `async_step_protocol_error(user_input)`. -/
def async_step_protocol_error (st : FlowState) (userInput : Option Unit) (env : PairEnv) :
    FlowResult :=
  match userInput with
  | some _ => async_step_pair st none env
  | none => protocol_error_form

/-- One iteration of the discovery loop of `async_step_user`: skip
accessories already paired, keep those whose lowercased name contains
`"xumo"`, keyed by discovered name. -/
def discoverStep (acc : List (String × Discovery)) (d : Discovery) :
    List (String × Discovery) :=
  if d.paired then acc
  else if containsXumo d.name then dictSet acc d.name d
  else acc

/-- `self.devices = {}` followed by the loop. -/
def discoverDevices (ds : List Discovery) : List (String × Discovery) :=
  ds.foldl discoverStep []

/-- The attribute assignments `async_step_user` performs on a device
selection, including `async_set_unique_id(normalize_hkid(hkid))`. -/
def selectDevice (st : FlowState) (discovery : Discovery) : FlowState :=
  { st with
    category := some discovery.category
    hkid := some discovery.id
    model := some discovery.model
    name := some (if discovery.name = "" then DEFAULT_NAME else discovery.name)
    uniqueId := some (normalize_hkid discovery.id) }

/-- `async_step_user(user_input)`; `discoveries` is the stream
`controller.async_discover()` yields.  Returns the step result and the
updated flow state (the stored `self.devices`).  An unknown selection key
would raise `KeyError`. -/
def async_step_user (st : FlowState) (userInput : Option String)
    (discoveries : List Discovery) (env : PairEnv) : FlowResult × FlowState :=
  match userInput with
  | some key =>
    match st.devices.lookup key with
    | none => (.uncaughtError, st)
    | some discovery =>
      let st' := selectDevice st discovery
      (async_step_pair st' none env, st')
  | none =>
    let devices := discoverDevices discoveries
    let st' := { st with devices := devices }
    if devices.isEmpty then (.abort "no_devices", st')
    else (.showForm "user" [], st')

/-! ### The parser of `PIN_FORMAT` recognises exactly the spec's PIN shape -/

theorem digit_ne_dash {c : Char} (h : c.isDigit = true) : c ≠ '-' := by
  intro e; subst e; exact absurd h (by decide)

theorem optDash_cases (l : List Char) :
    (∃ t, l = '-' :: t ∧ optDash l = t) ∨ (optDash l = l ∧ ∀ t, l ≠ '-' :: t) := by
  cases l with
  | nil => right; exact ⟨rfl, fun t h => List.noConfusion h⟩
  | cons c r =>
    by_cases h : c = '-'
    · left; exact ⟨r, by simp [h], by simp [optDash, h]⟩
    · right
      constructor
      · simp [optDash, h]
      · intro t he
        exact h (List.head_eq_of_cons_eq he)

theorem pinMatch_shape {s a b c : List Char} (h : pinMatch s = some (a, b, c)) :
    PinShape s a b c := by
  unfold pinMatch at h
  split at h
  case h_2 => simp at h
  case h_1 a1 a2 a3 r1 =>
    split at h
    case isFalse => simp at h
    case isTrue hd1 =>
    split at h
    case h_2 => simp at h
    case h_1 b1 b2 r2 heq1 =>
    split at h
    case isFalse => simp at h
    case isTrue hd2 =>
    split at h
    case h_2 => simp at h
    case h_1 c1 c2 c3 r3 heq2 =>
    split at h
    case isFalse => simp at h
    case isTrue hd3 =>
    obtain ⟨rfl, rfl, rfl⟩ : a = [a1, a2, a3] ∧ b = [b1, b2] ∧ c = [c1, c2, c3] := by
      simpa using h.symm
    simp only [Bool.and_eq_true, List.isEmpty_iff] at hd3
    obtain ⟨hd3, hr3⟩ := hd3
    subst hr3
    refine ⟨rfl, rfl, rfl, hd1, hd2, hd3, ?_⟩
    rcases optDash_cases r1 with ⟨t1, rfl, he1⟩ | ⟨he1, hne1⟩ <;>
      rcases optDash_cases r2 with ⟨t2, rfl, he2⟩ | ⟨he2, hne2⟩ <;>
      simp_all [dashedForms]

theorem shape_pinMatch {s a b c : List Char} (h : PinShape s a b c) :
    pinMatch s = some (a, b, c) := by
  obtain ⟨ha, hb, hc, da, db, dc, hm⟩ := h
  obtain ⟨a1, a2, a3, rfl⟩ := List.length_eq_three.mp ha
  obtain ⟨b1, b2, rfl⟩ := List.length_eq_two.mp hb
  obtain ⟨c1, c2, c3, rfl⟩ := List.length_eq_three.mp hc
  simp only [isDigits, List.all_cons, List.all_nil, Bool.and_eq_true,
    Bool.and_true] at da db dc
  obtain ⟨da1, da2, da3⟩ := da
  obtain ⟨db1, db2⟩ := db
  obtain ⟨dc1, dc2, dc3⟩ := dc
  simp only [dashedForms, List.mem_cons, List.not_mem_nil, or_false] at hm
  rcases hm with h | h | h | h <;> subst h <;>
    simp [pinMatch, isDigits, optDash, da1, da2, da3, db1, db2, dc1, dc2, dc3,
      digit_ne_dash db1, digit_ne_dash dc1]

theorem pinMatch_eq_some_iff {s a b c : List Char} :
    pinMatch s = some (a, b, c) ↔ PinShape s a b c :=
  ⟨pinMatch_shape, shape_pinMatch⟩

/-- C1 (counterexample): the input `"123-45-678"` has the PIN shape, yet
`ensure_pin_format` (with its default falsy `allow_insecure_setup_codes`)
does not return the dashed code: it raises `InsecureSetupCode`, because the
digit string `"12345678"` is in `INSECURE_CODES`. -/
theorem ensure_pin_format_insecure_cex :
    PinShape (pyStrip "123-45-678".toList) ['1', '2', '3'] ['4', '5'] ['6', '7', '8'] ∧
    ensure_pin_format "123-45-678" ≠ .ok "123-45-678" ∧
    ensure_pin_format "123-45-678" = .error .insecureSetupCode := by
  have h : ensure_pin_format "123-45-678" = .error .insecureSetupCode := rfl
  refine ⟨?_, ?_, h⟩
  · exact ⟨rfl, rfl, rfl, by decide, by decide, by decide, by decide⟩
  · rw [h]; intro hc; exact Except.noConfusion hc

/-- C1 (amended): for every input whose stripped form consists of three
digits, an optional dash, two digits, an optional dash and three digits,
`ensure_pin_format` returns the eight digits joined as `ddd-dd-ddd` — unless
the digits form one of the `INSECURE_CODES`, in which case (the
`allow_insecure_setup_codes` argument being falsy) it raises
`InsecureSetupCode`; for every input whose stripped form does not match that
shape it raises `MalformedPinError`. -/
theorem ensure_pin_format_spec (s : String) :
    (∀ a b c : List Char, PinShape (pyStrip s.toList) a b c →
      ((a ++ b ++ c).asString ∉ INSECURE_CODES →
        ensure_pin_format s = .ok ((a ++ '-' :: (b ++ '-' :: c)).asString)) ∧
      ((a ++ b ++ c).asString ∈ INSECURE_CODES →
        ensure_pin_format s = .error .insecureSetupCode)) ∧
    ((∀ a b c : List Char, ¬ PinShape (pyStrip s.toList) a b c) →
      ensure_pin_format s = .error .malformedPin) := by
  constructor
  · intro a b c hshape
    have hm : pinMatch (pyStrip s.data) = some (a, b, c) := shape_pinMatch hshape
    rw [List.append_assoc]
    constructor <;> intro hmem <;>
      simp [ensure_pin_format, hm, hmem]
  · intro hnone
    rcases hp : pinMatch (pyStrip s.data) with _ | ⟨a, b, c⟩
    · simp [ensure_pin_format, hp]
    · exact absurd (pinMatch_shape hp) (hnone a b c)

/-- C1 (witness): the well-formed, secure code `"12345670"` is normalized to
`"123-45-670"`. -/
theorem ensure_pin_format_spec_witness :
    ensure_pin_format "123-45670" = .ok "123-45-670" := by
  refine ((ensure_pin_format_spec "123-45670").1
    ['1', '2', '3'] ['4', '5'] ['6', '7', '0'] ?_).1 (by decide)
  exact ⟨rfl, rfl, rfl, by decide, by decide, by decide, by decide⟩

/-- C8: on a well-formed PIN, `ensure_pin_format` raises `InsecureSetupCode`
exactly when the digits (dashes removed) are one of the `INSECURE_CODES` and
`allow_insecure_setup_codes` is falsy; when it is truthy those codes are
accepted and returned in dashed form; and `INSECURE_CODES` consists of the
ten eight-fold repeated digits together with `"12345678"` and `"87654321"`. -/
theorem ensure_pin_format_insecure_iff (s : String) (allow : Bool) (a b c : List Char)
    (hshape : PinShape (pyStrip s.toList) a b c) :
    (ensure_pin_format s allow = .error .insecureSetupCode ↔
      allow = false ∧ (a ++ b ++ c).asString ∈ INSECURE_CODES) ∧
    (allow = true → ensure_pin_format s allow = .ok ((a ++ '-' :: (b ++ '-' :: c)).asString)) ∧
    INSECURE_CODES = (['0', '1', '2', '3', '4', '5', '6', '7', '8', '9'].map
      (fun d => (List.replicate 8 d).asString)) ++ ["12345678", "87654321"] := by
  have hm : pinMatch (pyStrip s.data) = some (a, b, c) := shape_pinMatch hshape
  refine ⟨?_, ?_, by decide⟩
  · rw [List.append_assoc]
    cases allow
    · by_cases hmem : (a ++ (b ++ c)).asString ∈ INSECURE_CODES <;>
        simp [ensure_pin_format, hm, hmem]
    · simp [ensure_pin_format, hm]
  · rintro rfl
    simp [ensure_pin_format, hm]

/-- C8 (witness): `"11111111"` is rejected as insecure by default and
accepted as `"111-11-111"` when insecure codes are allowed. -/
theorem ensure_pin_format_insecure_iff_witness :
    ensure_pin_format "11111111" false = .error .insecureSetupCode ∧
    ensure_pin_format "11111111" true = .ok "111-11-111" := by
  have hs : PinShape (pyStrip "11111111".toList) ['1', '1', '1'] ['1', '1'] ['1', '1', '1'] :=
    ⟨rfl, rfl, rfl, by decide, by decide, by decide, by decide⟩
  constructor
  · exact (ensure_pin_format_insecure_iff "11111111" false _ _ _ hs).1.mpr ⟨rfl, by decide⟩
  · exact (ensure_pin_format_insecure_iff "11111111" true _ _ _ hs).2.1 rfl

end XumoTV

namespace XumoTV

/-! ### Media player entity theorems -/


/-- C4: the television `state` is `OFF` when the `ACTIVE` value is falsy;
otherwise `PLAYING`/`PAUSED`/`IDLE` when `CURRENT_MEDIA_STATE` is
`PLAYING`/`PAUSED`/`STOPPED`, and `ON` when it is `None` or any other
value. -/
theorem state_spec (tv : HomeKitTelevision) :
    ((tv.service.activeValue = none ∨ tv.service.activeValue = some 0) →
      tv.state = .off) ∧
    (∀ n, tv.service.activeValue = some n → n ≠ 0 →
      (tv.service.currentMediaStateValue = some CurrentMediaStateValues.PLAYING →
        tv.state = .playing) ∧
      (tv.service.currentMediaStateValue = some CurrentMediaStateValues.PAUSED →
        tv.state = .paused) ∧
      (tv.service.currentMediaStateValue = some CurrentMediaStateValues.STOPPED →
        tv.state = .idle) ∧
      (tv.service.currentMediaStateValue = none → tv.state = .on) ∧
      (∀ v, tv.service.currentMediaStateValue = some v →
        v ≠ CurrentMediaStateValues.PLAYING → v ≠ CurrentMediaStateValues.PAUSED →
        v ≠ CurrentMediaStateValues.STOPPED → tv.state = .on)) := by
  constructor
  · rintro (h | h) <;> simp [HomeKitTelevision.state, h]
  · rintro n hn hn0
    rcases n with _ | m
    · exact absurd rfl hn0
    refine ⟨fun h => ?_, fun h => ?_, fun h => ?_, fun h => ?_, fun v h h0 h1 h2 => ?_⟩
    · simp [HomeKitTelevision.state, hn, h, HK_TO_HA_STATE, List.lookup,
        CurrentMediaStateValues.PLAYING, CurrentMediaStateValues.PAUSED,
        CurrentMediaStateValues.STOPPED]
    · simp [HomeKitTelevision.state, hn, h, HK_TO_HA_STATE, List.lookup,
        CurrentMediaStateValues.PLAYING, CurrentMediaStateValues.PAUSED,
        CurrentMediaStateValues.STOPPED]
    · simp [HomeKitTelevision.state, hn, h, HK_TO_HA_STATE, List.lookup,
        CurrentMediaStateValues.PLAYING, CurrentMediaStateValues.PAUSED,
        CurrentMediaStateValues.STOPPED]
    · simp [HomeKitTelevision.state, hn, h]
    · simp [CurrentMediaStateValues.PLAYING] at h0
      simp [CurrentMediaStateValues.PAUSED] at h1
      simp [CurrentMediaStateValues.STOPPED] at h2
      have e0 : (v == 0) = false := beq_eq_false_iff_ne.mpr h0
      have e1 : (v == 1) = false := beq_eq_false_iff_ne.mpr h1
      have e2 : (v == 2) = false := beq_eq_false_iff_ne.mpr h2
      simp [HomeKitTelevision.state, hn, h, HK_TO_HA_STATE, List.lookup, e0, e1, e2,
        CurrentMediaStateValues.PLAYING, CurrentMediaStateValues.PAUSED,
        CurrentMediaStateValues.STOPPED]

/-- C4 (witness): concrete accessory states for the playing, off and
unknown-media-state cases. -/
theorem state_spec_witness :
    HomeKitTelevision.state ⟨⟨true, true, true, true, some 1, some 0, [0, 1, 2], [11]⟩, none⟩ =
      .playing ∧
    HomeKitTelevision.state ⟨⟨true, true, true, true, some 0, some 0, [0, 1, 2], [11]⟩, none⟩ =
      .off ∧
    HomeKitTelevision.state ⟨⟨true, true, true, true, some 1, some 7, [0, 1, 2], [11]⟩, none⟩ =
      .on := by
  refine ⟨?_, ?_, ?_⟩
  · exact ((state_spec _).2 1 rfl (by decide)).1 rfl
  · exact (state_spec _).1 (Or.inr rfl)
  · exact ((state_spec _).2 1 rfl (by decide)).2.2.2.2 7 rfl (by decide) (by decide) (by decide)



theorem mem_ite_nil {α : Type} {b : Prop} [Decidable b] {x : α} {l : List α} :
    (x ∈ if b then l else []) ↔ b ∧ x ∈ l := by
  split <;> simp_all

/-- C7: each `supported_features` flag is present exactly under the
conditions on the service characteristics: `SELECT_SOURCE` iff
`ACTIVE_IDENTIFIER`, `TURN_ON`/`TURN_OFF` iff `ACTIVE`,
`PAUSE`/`PLAY`/`STOP` via `TARGET_MEDIA_STATE` and its supported values
(`PAUSE`/`PLAY` also via `REMOTE_KEY` with `PLAY_PAUSE`), and the volume
flags only when a speaker exists with the matching characteristic. -/
theorem supported_features_spec (tv : HomeKitTelevision) :
    (.SELECT_SOURCE ∈ tv.supported_features ↔ tv.service.hasActiveIdentifier = true) ∧
    (.TURN_ON ∈ tv.supported_features ↔ tv.service.hasActive = true) ∧
    (.TURN_OFF ∈ tv.supported_features ↔ tv.service.hasActive = true) ∧
    (.PAUSE ∈ tv.supported_features ↔
      ((tv.service.hasTargetMediaState = true ∧
          TargetMediaStateValues.PAUSE ∈ tv.supported_media_states) ∨
       (tv.service.hasRemoteKey = true ∧
          RemoteKeyValues.PLAY_PAUSE ∈ tv.supported_remote_keys))) ∧
    (.PLAY ∈ tv.supported_features ↔
      ((tv.service.hasTargetMediaState = true ∧
          TargetMediaStateValues.PLAY ∈ tv.supported_media_states) ∨
       (tv.service.hasRemoteKey = true ∧
          RemoteKeyValues.PLAY_PAUSE ∈ tv.supported_remote_keys))) ∧
    (.STOP ∈ tv.supported_features ↔
      (tv.service.hasTargetMediaState = true ∧
        TargetMediaStateValues.STOP ∈ tv.supported_media_states)) ∧
    (.VOLUME_SET ∈ tv.supported_features ↔
      (∃ sp, tv.speaker = some sp ∧ sp.hasVolume = true)) ∧
    (.VOLUME_STEP ∈ tv.supported_features ↔
      (∃ sp, tv.speaker = some sp ∧ sp.hasVolumeSelector = true)) ∧
    (.VOLUME_MUTE ∈ tv.supported_features ↔
      (∃ sp, tv.speaker = some sp ∧ sp.hasMute = true)) := by
  rcases hsp : tv.speaker with _ | sp <;>
    refine ⟨?_, ?_, ?_, ?_, ?_, ?_, ?_, ?_, ?_⟩ <;>
    simp [HomeKitTelevision.supported_features, hsp, mem_ite_nil, List.mem_append]

/-- C7 (witness): a TV with only `REMOTE_KEY`'s `PLAY_PAUSE` supports
`PAUSE`, and without a speaker it does not support `VOLUME_MUTE`. -/
theorem supported_features_spec_witness :
    MediaPlayerEntityFeature.PAUSE ∈ HomeKitTelevision.supported_features
      ⟨⟨true, false, false, true, some 1, none, [], [11]⟩, none⟩ ∧
    MediaPlayerEntityFeature.VOLUME_MUTE ∉ HomeKitTelevision.supported_features
      ⟨⟨true, false, false, true, some 1, none, [], [11]⟩, none⟩ := by
  constructor
  · exact (supported_features_spec _).2.2.2.1.mpr (Or.inr ⟨rfl, by decide⟩)
  · intro hmem
    obtain ⟨sp, hsp, _⟩ :=
      (supported_features_spec
        ⟨⟨true, false, false, true, some 1, none, [], [11]⟩, none⟩).2.2.2.2.2.2.2.2.mp hmem
    exact Option.noConfusion hsp



/-- C9: `async_media_play` issues no write when already `PLAYING`,
`async_media_pause` none when already `PAUSED`, `async_media_stop` none when
`IDLE` and also none when `STOP` is not a supported target media state. -/
theorem media_commands_noop (tv : HomeKitTelevision) :
    (tv.state = .playing → tv.async_media_play = none) ∧
    (tv.state = .paused → tv.async_media_pause = none) ∧
    (tv.state = .idle → tv.async_media_stop = none) ∧
    (TargetMediaStateValues.STOP ∉ tv.supported_media_states → tv.async_media_stop = none) := by
  refine ⟨fun h => ?_, fun h => ?_, fun h => ?_, fun h => ?_⟩
  · simp [HomeKitTelevision.async_media_play, h]
  · simp [HomeKitTelevision.async_media_pause, h]
  · simp [HomeKitTelevision.async_media_stop, h]
  · by_cases hi : tv.state = .idle <;> simp [HomeKitTelevision.async_media_stop, hi, h]

/-- C9 (witness): a playing TV gets no play write; a TV without `STOP`
among its target media states gets no stop write. -/
theorem media_commands_noop_witness :
    HomeKitTelevision.async_media_play
      ⟨⟨true, true, true, true, some 1, some 0, [0, 1, 2], [11]⟩, none⟩ = none ∧
    HomeKitTelevision.async_media_stop
      ⟨⟨true, true, true, true, some 1, some 1, [0, 1], [11]⟩, none⟩ = none := by
  constructor
  · exact (media_commands_noop _).1 rfl
  · exact (media_commands_noop
      ⟨⟨true, true, true, true, some 1, some 1, [0, 1], [11]⟩, none⟩).2.2.2 (by decide)

/-- C10: `async_mute_volume` issues the same write — `MUTE := 1` to the
speaker — whatever its `mute` argument. -/
theorem async_mute_volume_ignores_arg (tv : HomeKitTelevision) (m1 m2 : Bool) :
    tv.async_mute_volume m1 = tv.async_mute_volume m2 ∧
    tv.async_mute_volume m1 = ⟨.speaker, .mute, 1⟩ :=
  ⟨rfl, rfl⟩


end XumoTV

namespace XumoTV



/-! ### Config flow theorems -/

theorem lookup_dictSet_self {α : Type} (d : List (String × α)) (k : String) (v : α) :
    (dictSet d k v).lookup k = some v := by
  induction d with
  | nil => simp [dictSet, List.lookup]
  | cons p t ih =>
    obtain ⟨a, b⟩ := p
    by_cases h : a = k
    · simp [dictSet, h, List.lookup]
    · simp [dictSet, h, List.lookup, ih, beq_eq_false_iff_ne.mpr (Ne.symm h)]

theorem mem_dictSet {α : Type} (d : List (String × α)) (k k' : String) (v v' : α)
    (h : (k', v') ∈ dictSet d k v) : (k', v') ∈ d ∨ (k' = k ∧ v' = v) := by
  induction d with
  | nil => simpa [dictSet] using h
  | cons p t ih =>
    obtain ⟨a, b⟩ := p
    by_cases ha : a = k
    · subst ha
      rcases (by simpa [dictSet] using h : (k', v') = (a, v) ∨ (k', v') ∈ t) with h1 | h1
      · right; exact ⟨(Prod.mk.injEq .. ▸ h1).1, (Prod.mk.injEq .. ▸ h1).2⟩
      · left; exact List.mem_cons_of_mem _ h1
    · rcases (by simpa [dictSet, ha] using h : (k', v') = (a, b) ∨ (k', v') ∈ dictSet t k v)
        with h1 | h1
      · left; simp [h1]
      · rcases ih h1 with h2 | h2
        · left; exact List.mem_cons_of_mem _ h2
        · right; exact h2

theorem dictSet_ne_nil {α : Type} (d : List (String × α)) (k : String) (v : α) :
    dictSet d k v ≠ [] := by
  cases d with
  | nil => simp [dictSet]
  | cons p t =>
    obtain ⟨a, b⟩ := p
    by_cases h : a = k <;> simp [dictSet, h]

theorem lookup_mem {α : Type} {d : List (String × α)} {k : String} {v : α}
    (h : d.lookup k = some v) : (k, v) ∈ d := by
  induction d with
  | nil => simp [List.lookup] at h
  | cons p t ih =>
    obtain ⟨a, b⟩ := p
    by_cases ha : k = a
    · subst ha
      simp [List.lookup] at h
      simp [h]
    · simp [List.lookup, beq_eq_false_iff_ne.mpr ha] at h
      exact List.mem_cons_of_mem _ (ih h)

theorem key_mem_dictSet_self {α : Type} (d : List (String × α)) (k : String) (v : α) :
    ∃ v', (k, v') ∈ dictSet d k v :=
  ⟨v, lookup_mem (lookup_dictSet_self d k v)⟩

theorem key_mem_dictSet_of_mem {α : Type} {d : List (String × α)} {k' : String} {v' : α}
    (h : (k', v') ∈ d) (k : String) (v : α) : ∃ v'', (k', v'') ∈ dictSet d k v := by
  induction d with
  | nil => simp at h
  | cons p t ih =>
    obtain ⟨a, b⟩ := p
    by_cases ha : a = k
    · subst ha
      rcases List.mem_cons.mp h with h1 | h1
      · have hk : k' = a := (Prod.mk.injEq _ _ _ _ ▸ h1).1
        exact ⟨v, by simp [dictSet, hk]⟩
      · exact ⟨v', by simp [dictSet, List.mem_cons_of_mem _ h1]⟩
    · rcases List.mem_cons.mp h with h1 | h1
      · exact ⟨v', by simp [dictSet, ha, h1]⟩
      · obtain ⟨v'', hv⟩ := ih h1
        exact ⟨v'', by simp [dictSet, ha, List.mem_cons_of_mem _ hv]⟩

theorem mem_foldl_discoverStep (ds : List Discovery) :
    ∀ acc k d, (k, d) ∈ ds.foldl discoverStep acc →
      (k, d) ∈ acc ∨ (d ∈ ds ∧ d.paired = false ∧ containsXumo d.name = true) := by
  induction ds with
  | nil => intro acc k d h; exact Or.inl h
  | cons x t ih =>
    intro acc k d h
    rcases ih (discoverStep acc x) k d h with h1 | ⟨h1, h2, h3⟩
    · unfold discoverStep at h1
      by_cases hp : x.paired
      · simp [hp] at h1
        exact Or.inl h1
      · by_cases hx : containsXumo x.name
        · simp [hp, hx] at h1
          rcases mem_dictSet _ _ _ _ _ h1 with h2 | ⟨h2, h3⟩
          · exact Or.inl h2
          · subst h3
            exact Or.inr ⟨List.mem_cons_self _ _, Bool.of_not_eq_true hp, hx⟩
        · simp [hp, hx] at h1
          exact Or.inl h1
    · exact Or.inr ⟨List.mem_cons_of_mem _ h1, h2, h3⟩

theorem key_mem_foldl_discoverStep (ds : List Discovery) :
    ∀ acc k,
      ((∃ v, (k, v) ∈ acc) ∨ ∃ d ∈ ds, d.paired = false ∧ containsXumo d.name = true ∧
        d.name = k) →
      ∃ v, (k, v) ∈ ds.foldl discoverStep acc := by
  induction ds with
  | nil =>
    intro acc k h
    rcases h with h | ⟨d, hd, _⟩
    · exact h
    · simp at hd
  | cons x t ih =>
    intro acc k h
    rcases h with ⟨v, hv⟩ | ⟨d, hd, h1, h2, h3⟩
    · refine ih (discoverStep acc x) k (Or.inl ?_)
      unfold discoverStep
      by_cases hp : x.paired
      · exact ⟨v, by simp [hp, hv]⟩
      · by_cases hx : containsXumo x.name
        · obtain ⟨v'', hv''⟩ := key_mem_dictSet_of_mem hv x.name x
          exact ⟨v'', by simp [hp, hx, hv'']⟩
        · exact ⟨v, by simp [hp, hx, hv]⟩
    · rcases List.mem_cons.mp hd with h4 | hd'
      · rw [h4] at h1 h2 h3
        refine ih (discoverStep acc x) k (Or.inl ?_)
        subst h3
        obtain ⟨v', hv'⟩ := key_mem_dictSet_self acc x.name x
        exact ⟨v', by simp [discoverStep, h1, h2, hv']⟩
      · exact ih (discoverStep acc x) k (Or.inr ⟨d, hd', h1, h2, h3⟩)

theorem foldl_discoverStep_eq_nil (ds : List Discovery) :
    ∀ acc, ds.foldl discoverStep acc = [] ↔
      (acc = [] ∧ ∀ d ∈ ds, d.paired = true ∨ containsXumo d.name = false) := by
  induction ds with
  | nil => intro acc; simp
  | cons x t ih =>
    intro acc
    by_cases hp : x.paired
    · simp only [List.foldl_cons]
      rw [show discoverStep acc x = acc from by simp [discoverStep, hp], ih]
      simp [hp]
    · by_cases hx : containsXumo x.name
      · simp only [List.foldl_cons]
        rw [show discoverStep acc x = dictSet acc x.name x from by simp [discoverStep, hp, hx],
          ih]
        simp [dictSet_ne_nil, hp, hx, Bool.of_not_eq_true hp]
      · simp only [List.foldl_cons]
        rw [show discoverStep acc x = acc from by simp [discoverStep, hp, hx], ih]
        simp [hp, hx, Bool.of_not_eq_true hp]



/-- C6: `async_step_user` offers exactly the discovered accessories that are
not already paired and whose name contains `"xumo"` case-insensitively, and
aborts with `no_devices` when there is no such accessory. -/
theorem discovery_filter_spec (ds : List Discovery) (st : FlowState) (env : PairEnv) :
    (∀ k d, (k, d) ∈ discoverDevices ds →
      d.paired = false ∧ containsXumo d.name = true ∧ d ∈ ds) ∧
    (∀ d ∈ ds, d.paired = false → containsXumo d.name = true →
      ∃ d', (d.name, d') ∈ discoverDevices ds) ∧
    ((∀ d ∈ ds, d.paired = true ∨ containsXumo d.name = false) →
      (async_step_user st none ds env).1 = .abort "no_devices") ∧
    ((∃ d ∈ ds, d.paired = false ∧ containsXumo d.name = true) →
      (async_step_user st none ds env).1 = .showForm "user" []) := by
  refine ⟨?_, ?_, ?_, ?_⟩
  · intro k d h
    rcases mem_foldl_discoverStep ds [] k d h with h1 | ⟨h1, h2, h3⟩
    · simp at h1
    · exact ⟨h2, h3, h1⟩
  · intro d hd h1 h2
    exact key_mem_foldl_discoverStep ds [] d.name (Or.inr ⟨d, hd, h1, h2, rfl⟩)
  · intro h
    have : discoverDevices ds = [] := (foldl_discoverStep_eq_nil ds []).mpr ⟨rfl, h⟩
    simp [async_step_user, this]
  · rintro ⟨d, hd, h1, h2⟩
    have hne : discoverDevices ds ≠ [] := by
      intro he
      have := ((foldl_discoverStep_eq_nil ds []).mp he).2 d hd
      simp [h1, h2] at this
    simp only [async_step_user]
    rw [if_neg (by simpa [List.isEmpty_iff] using hne)]

/-- C6 (witness): with one eligible device the user form is shown; with
none, the flow aborts with `no_devices`. -/
theorem discovery_filter_spec_witness :
    (async_step_user ⟨none, none, none, none, none, [], false, false⟩ none
      [⟨false, "My Xumo TV", "id1", "TELEVISION", "m"⟩,
       ⟨true, "Xumo paired", "id2", "TELEVISION", "m"⟩,
       ⟨false, "Other TV", "id3", "TELEVISION", "m"⟩]
      ⟨.authenticationError, .success, fun _ => none⟩).1 = .showForm "user" [] ∧
    (async_step_user ⟨none, none, none, none, none, [], false, false⟩ none
      [⟨true, "Xumo paired", "id2", "TELEVISION", "m"⟩,
       ⟨false, "Other TV", "id3", "TELEVISION", "m"⟩]
      ⟨.authenticationError, .success, fun _ => none⟩).1 = .abort "no_devices" := by
  constructor
  · exact (discovery_filter_spec _ _ _).2.2.2
      ⟨⟨false, "My Xumo TV", "id1", "TELEVISION", "m"⟩, by simp, rfl, by decide⟩
  · exact (discovery_filter_spec _ _ _).2.2.1 (by decide)



/-- C3: `async_step_user` with a device selection proceeds to
`async_step_pair`; each of the busy/max-tries/protocol error steps shows its
form on no input and re-enters `async_step_pair` on input; and
`async_step_pair` routes to those steps on the corresponding start-pairing
outcomes. -/
theorem step_sequence_spec (st : FlowState) (env : PairEnv) (ds : List Discovery)
    (key : String) (discovery : Discovery) :
    (st.devices.lookup key = some discovery →
      (async_step_user st (some key) ds env).1 =
        async_step_pair (selectDevice st discovery) none env) ∧
    (async_step_busy_error st none env = .showForm "busy_error" [] ∧
      async_step_busy_error st (some ()) env = async_step_pair st none env) ∧
    (async_step_max_tries_error st none env = .showForm "max_tries_error" [] ∧
      async_step_max_tries_error st (some ()) env = async_step_pair st none env) ∧
    (async_step_protocol_error st none env = .showForm "protocol_error" [] ∧
      async_step_protocol_error st (some ()) env = async_step_pair st none env) ∧
    (st.finishPairing = false →
      (env.startFind = .busyError →
        async_step_pair st none env = async_step_busy_error st none env) ∧
      (env.startFind = .maxTriesError →
        async_step_pair st none env = async_step_max_tries_error st none env) ∧
      (env.startFind = .indexError →
        async_step_pair st none env = async_step_protocol_error st none env)) := by
  refine ⟨fun h => ?_, ⟨rfl, rfl⟩, ⟨rfl, rfl⟩, ⟨rfl, rfl⟩, fun hf => ⟨fun h => ?_, fun h => ?_, fun h => ?_⟩⟩
  · simp [async_step_user, h]
  · simp [async_step_pair, startPairingPhase, hf, h, async_step_busy_error, busy_error_form]
  · simp [async_step_pair, startPairingPhase, hf, h, async_step_max_tries_error,
      max_tries_error_form]
  · simp [async_step_pair, startPairingPhase, hf, h, async_step_protocol_error,
      protocol_error_form]

/-- C3 (witness): a concrete selection enters the pair step, and a busy
accessory routes the pair step to the busy-error form. -/
theorem step_sequence_spec_witness :
    (async_step_user
        ⟨none, none, none, none, none, [("A", ⟨false, "A", "id1", "TELEVISION", "m"⟩)],
          false, false⟩
        (some "A") []
        ⟨.authenticationError, .busyError, fun _ => none⟩).1 =
      async_step_pair
        (selectDevice
          ⟨none, none, none, none, none, [("A", ⟨false, "A", "id1", "TELEVISION", "m"⟩)],
            false, false⟩
          ⟨false, "A", "id1", "TELEVISION", "m"⟩) none
        ⟨.authenticationError, .busyError, fun _ => none⟩ ∧
    async_step_pair
        ⟨none, none, none, none, none, [], false, false⟩ none
        ⟨.authenticationError, .busyError, fun _ => none⟩ =
      async_step_busy_error
        ⟨none, none, none, none, none, [], false, false⟩ none
        ⟨.authenticationError, .busyError, fun _ => none⟩ := by
  constructor
  · exact (step_sequence_spec _ _ [] "A" _).1 (by decide)
  · exact ((step_sequence_spec
      ⟨none, none, none, none, none, [], false, false⟩
      ⟨.authenticationError, .busyError, fun _ => none⟩ [] "A"
      ⟨false, "A", "id1", "TELEVISION", "m"⟩).2.2.2.2 rfl).1 rfl



/-- C2: the error mapping of `async_step_pair`: `MalformedPinError` and
`AuthenticationError` show `authentication_error`; `UnknownError`
`unknown_error`; `MaxPeersError` `max_peers_error`; `InsecureSetupCode`
`insecure_setup_code`; `AccessoryNotFoundError` aborts with
`accessory_not_found_error` in either phase; `UnavailableError` aborts with
`already_paired`; `BusyError`, `MaxTriesError` and `IndexError` route to the
`busy_error`, `max_tries_error` and `protocol_error` steps; any other
exception shows `pairing_failed`. -/
theorem pair_error_mapping (st : FlowState) (info : PairInfo) (env : PairEnv) :
    (st.finishPairing = true →
      (ensure_pin_format info.pairingCode info.allowInsecureSetupCodes =
          .error .malformedPin →
        async_step_pair st (some info) env =
          .showForm "pair" [("pairing_code", "authentication_error")]) ∧
      (ensure_pin_format info.pairingCode info.allowInsecureSetupCodes =
          .error .insecureSetupCode →
        async_step_pair st (some info) env =
          .showForm "pair" [("pairing_code", "insecure_setup_code")]) ∧
      (∀ code, ensure_pin_format info.pairingCode info.allowInsecureSetupCodes = .ok code →
        (env.finishCall = .authenticationError → env.startFind = .success →
          async_step_pair st (some info) env =
            .showForm "pair" [("pairing_code", "authentication_error")]) ∧
        (env.finishCall = .unknownError → env.startFind = .success →
          async_step_pair st (some info) env =
            .showForm "pair" [("pairing_code", "unknown_error")]) ∧
        (env.finishCall = .maxPeersError → env.startFind = .success →
          async_step_pair st (some info) env =
            .showForm "pair" [("pairing_code", "max_peers_error")]) ∧
        (env.finishCall = .accessoryNotFoundError →
          async_step_pair st (some info) env = .abort "accessory_not_found_error") ∧
        (∀ m, env.finishCall = .otherError m → env.startFind = .success →
          async_step_pair st (some info) env =
            .showForm "pair" [("pairing_code", "pairing_failed")]))) ∧
    (st.finishPairing = false →
      (env.startFind = .busyError →
        async_step_pair st none env = .showForm "busy_error" []) ∧
      (env.startFind = .maxTriesError →
        async_step_pair st none env = .showForm "max_tries_error" []) ∧
      (env.startFind = .unavailableError →
        async_step_pair st none env = .abort "already_paired") ∧
      (env.startFind = .accessoryNotFoundError →
        async_step_pair st none env = .abort "accessory_not_found_error") ∧
      (env.startFind = .indexError →
        async_step_pair st none env = .showForm "protocol_error" []) ∧
      (∀ m, env.startFind = .otherError m →
        async_step_pair st none env = .showForm "pair" [("pairing_code", "pairing_failed")])) := by
  constructor
  · intro hf
    refine ⟨fun hpin => ?_, fun hpin => ?_, fun code hpin => ?_⟩
    · simp [async_step_pair, hf, hpin, startPairingPhase, async_step_pair_show_form]
    · simp [async_step_pair, hf, hpin, startPairingPhase, async_step_pair_show_form]
    · refine ⟨fun hfc hsf => ?_, fun hfc hsf => ?_, fun hfc hsf => ?_, fun hfc => ?_,
        fun m hfc hsf => ?_⟩ <;>
      simp [async_step_pair, hf, hpin, startPairingPhase, async_step_pair_show_form, *]
  · intro hf
    refine ⟨fun hsf => ?_, fun hsf => ?_, fun hsf => ?_, fun hsf => ?_, fun hsf => ?_,
      fun m hsf => ?_⟩ <;>
    simp [async_step_pair, hf, hsf, startPairingPhase, async_step_pair_show_form,
      busy_error_form, max_tries_error_form, protocol_error_form, dictSet]

/-- C2 (witness): an SRP-proof failure shows the `authentication_error`
string; an already-paired accessory aborts the flow. -/
theorem pair_error_mapping_witness :
    async_step_pair ⟨none, none, none, none, none, [], true, false⟩
        (some ⟨"123-45-670", false⟩)
        ⟨.authenticationError, .success, fun _ => none⟩ =
      .showForm "pair" [("pairing_code", "authentication_error")] ∧
    async_step_pair ⟨none, none, none, none, none, [], false, false⟩ none
        ⟨.authenticationError, .unavailableError, fun _ => none⟩ =
      .abort "already_paired" := by
  constructor
  · exact ((((pair_error_mapping ⟨none, none, none, none, none, [], true, false⟩
      ⟨"123-45-670", false⟩
      ⟨.authenticationError, .success, fun _ => none⟩).1 rfl).2.2 "123-45-670"
        (by rfl)).1 rfl rfl)
  · exact (((pair_error_mapping ⟨none, none, none, none, none, [], false, false⟩
      ⟨"123-45-670", false⟩
      ⟨.authenticationError, .unavailableError, fun _ => none⟩).2 rfl).2.2.1 rfl)



theorem lookup_dictSet_ne {α : Type} (d : List (String × α)) (k k' : String) (v : α)
    (h : k' ≠ k) : (dictSet d k v).lookup k' = d.lookup k' := by
  induction d with
  | nil => simp [dictSet, List.lookup, beq_eq_false_iff_ne.mpr h]
  | cons p t ih =>
    obtain ⟨a, b⟩ := p
    by_cases ha : a = k
    · subst ha
      simp [dictSet, List.lookup, beq_eq_false_iff_ne.mpr h]
    · by_cases ha' : k' = a
      · subst ha'
        simp [dictSet, ha, List.lookup]
      · simp [dictSet, ha, List.lookup, ih, beq_eq_false_iff_ne.mpr ha']

/-- C5 (counterexample): the created entry's data is not just the library's
pairing record — the integration adds a `TV_MAC_ADDRESS` key before
persisting. -/
theorem entry_data_not_pairing_record_cex :
    (entryFromAccessory
        ⟨"aa:bb", [("AccessoryPairingID", .str "aa:bb"),
                   ("AccessoryIPs", .strList ["10.0.0.2"])], "Xumo TV",
          ⟨1, "accs", "bkey", 2⟩⟩
        (fun _ => some "de:ad:be:ef:00:01")).result =
      .createEntry "Xumo TV"
        [("AccessoryPairingID", .str "aa:bb"),
         ("AccessoryIPs", .strList ["10.0.0.2"]),
         ("TV_MAC_ADDRESS", .str "de:ad:be:ef:00:01")] ∧
    ([("AccessoryPairingID", PValue.str "aa:bb"),
      ("AccessoryIPs", PValue.strList ["10.0.0.2"]),
      ("TV_MAC_ADDRESS", PValue.str "de:ad:be:ef:00:01")] ≠
      [("AccessoryPairingID", PValue.str "aa:bb"),
       ("AccessoryIPs", PValue.strList ["10.0.0.2"])]) := by
  constructor
  · rfl
  · decide

/-- C5 (amended): when pairing completes, the config entry receives the
pairing record plus one integration-added key `TV_MAC_ADDRESS` (every other
key/value is exactly the pairing record's); the accessory map is handed to
the external entity-storage helper, not placed on the entry. -/
theorem entry_from_accessory_spec (pairing : Pairing) (macOf : String → Option String)
    (ips : List String)
    (hips : pairing.pairingData.lookup "AccessoryIPs" = some (.strList ips)) :
    (entryFromAccessory pairing macOf).storageCall =
      some ⟨pairing.id, pairing.accessoriesState.configNum,
        pairing.accessoriesState.accessoriesSerialized,
        pairing.accessoriesState.broadcastKeySerialized,
        pairing.accessoriesState.stateNum⟩ ∧
    ∃ mac : PValue,
      (entryFromAccessory pairing macOf).result =
        .createEntry pairing.primaryName
          (dictSet pairing.pairingData "TV_MAC_ADDRESS" mac) ∧
      (∀ k, k ≠ "TV_MAC_ADDRESS" →
        (dictSet pairing.pairingData "TV_MAC_ADDRESS" mac).lookup k =
          pairing.pairingData.lookup k) ∧
      (dictSet pairing.pairingData "TV_MAC_ADDRESS" mac).lookup "TV_MAC_ADDRESS" =
        some mac := by
  refine ⟨by simp [entryFromAccessory, hips], ?_⟩
  refine ⟨if ips.isEmpty then .str "" else
      match macOf (ips.headD "") with
      | some m => .str m
      | none => .pynone, ?_, ?_, ?_⟩
  · simp [entryFromAccessory, hips]
  · intro k hk
    exact lookup_dictSet_ne _ _ _ _ hk
  · exact lookup_dictSet_self _ _ _

/-- C5 (witness): a concrete pairing: the storage call carries the
accessory-map state. -/
theorem entry_from_accessory_spec_witness :
    (entryFromAccessory
        ⟨"aa:bb", [("AccessoryIPs", .strList [])], "TV", ⟨0, "a", "b", 0⟩⟩
        (fun _ => none)).storageCall = some ⟨"aa:bb", 0, "a", "b", 0⟩ := by
  exact (entry_from_accessory_spec
    ⟨"aa:bb", [("AccessoryIPs", .strList [])], "TV", ⟨0, "a", "b", 0⟩⟩
    (fun _ => none) [] (by decide)).1

end XumoTV
